import Mathlib

/-!
Verification of the estimmo-ai multi-source valuation pipeline.

This file gives a shallow embedding, in Lean 4, of the algorithmic core of the
repository (src/backend/services/estimation.py, src/backend/services/vision.py,
src/backend/services/cadastre.py, src/services/dvf.py) and proves or refutes
the frozen behavioural claims about it.

Embedding conventions:
- Python floats are modelled as exact rationals (ℚ); Python ints as ℤ/ℕ.
- Python `dict.get(k, d)` on the loosely typed payload dicts is modelled by
  `Option`-typed record fields read through `Option.getD`.
- Python truthiness (`if x:`) on optional numbers/strings is modelled by the
  `truthy*` helpers below (absent, zero and the empty string are falsy).
- `round(x, n)` (banker's rounding, ties to even) is modelled by `pyRound0` /
  `pyRoundTo`.
- Wall-clock-only fields (`date_requete`, `date_estimation`, `date_analyse`)
  are outside the embedding; the seasonal month used by the engine is an
  explicit parameter.
- Network calls are modelled by explicit transport records; every embedded
  service function additionally returns the list of network requests it
  issued, so "performs no network I/O" is a provable statement.
-/

/- Batteries seals rational arithmetic against unfolding; re-open it locally
so that concrete witnesses and counterexamples can be checked by `decide`. -/
attribute [local semireducible] Rat.mul Rat.add Rat.sub Rat.inv Rat.ofScientific

namespace Estimmo

/-- Python `round(x)` to zero decimal places: round half to even. -/
def pyRound0 (x : ℚ) : ℤ :=
  if x - ⌊x⌋ < 1/2 then ⌊x⌋
  else if 1/2 < x - ⌊x⌋ then ⌊x⌋ + 1
  else if Even ⌊x⌋ then ⌊x⌋ else ⌊x⌋ + 1

/-- Python `round(x, d)` for `d` decimal places (ties to even). -/
def pyRoundTo (d : ℕ) (x : ℚ) : ℚ :=
  (pyRound0 (x * 10 ^ d) : ℚ) / 10 ^ d

/-- Python truthiness of an optional float (`None` and `0.0` are falsy). -/
def truthyQ : Option ℚ → Bool
  | none => false
  | some q => q != 0

/-- Python truthiness of an optional int (`None` and `0` are falsy). -/
def truthyInt : Option ℤ → Bool
  | none => false
  | some n => n != 0

/-- Python truthiness of an optional string (`None` and `""` are falsy). -/
def truthyStr : Option String → Bool
  | none => false
  | some s => s != ""

/-- Python `a and a > 0` on an optional float, as used for `surface_batie`. -/
def truthyPosQ : Option ℚ → Bool
  | none => false
  | some b => decide (0 < b)

/-- Python `max` over a nonempty list of floats (`0` on `[]`, unreachable). -/
def pyMaxQ : List ℚ → ℚ
  | [] => 0
  | x :: xs => xs.foldl max x

/-- Python `max` over a nonempty list of ints (`0` on `[]`, unreachable). -/
def pyMaxZ : List ℤ → ℤ
  | [] => 0
  | x :: xs => xs.foldl max x

/--
Python `max(iterable, key=types.count)`: scan `iter` keeping the current
element, replacing it only when a strictly larger count appears, so the first
element (in iteration order) with maximal count wins.  Returns `""` on an
empty iterable (Python raises there; unreachable in the program).
-/
def pyMaxByCount (types : List String) : List String → String
  | [] => ""
  | x :: xs => xs.foldl (fun acc y => if types.count y > types.count acc then y else acc) x

/-! ## VisionAnalyzer (src/backend/services/vision.py)

The raw pixel-array feature extractors (`_analyze_colors`, `_analyze_texture`,
`_detect_horizontal_lines`) run numpy floating-point reductions over the
decoded image; the embedding treats their outputs — the dominant-colour list,
the texture score and the detected line positions — as the decoded-image
abstraction (`VisionFeatures`).  All logic downstream of them is embedded
from the source.  The colour list is modelled as (name, number) pairs,
matching the `{"name": …, "ratio"/"value": …}` dicts of the source.
-/

/-- An analysis payload dict.  Input dicts may lack keys, hence `Option`
fields; `methode`, `nombre_photos_analysees` and `analyses_individuelles`
model the like-named entries of the nested `details` dict (its remaining
entries are debug echoes of the inputs). -/
structure Assessment where
  type_bien : Option String
  type_bien_label : Option String
  etat_exterieur : Option String
  etat_label : Option String
  coefficient_etat : Option ℚ
  nombre_etages_estime : Option ℤ
  surface_estimee_vision : Option ℚ
  score_confiance : Option ℚ
  methode : Option String
  nombre_photos_analysees : Option ℕ
  analyses_individuelles : Option (List ℚ)
deriving DecidableEq

namespace VisionAnalyzer

/-- `PROPERTY_TYPES` lookup with the `.get(type_bien, "Inconnu")` default. -/
def PROPERTY_TYPES (t : String) : String :=
  match t with
  | "maison" => "Maison individuelle"
  | "appartement" => "Appartement"
  | "immeuble" => "Immeuble collectif"
  | "terrain" => "Terrain nu"
  | "local_commercial" => "Local commercial"
  | "inconnu" => "Type indéterminé"
  | _ => "Inconnu"

/-- The ordered `STATES` dict: (key, label, coefficient), in insertion order. -/
def STATES : List (String × String × ℚ) :=
  [("neuf", "Neuf / Récent", 115/100),
   ("tres_bon", "Très bon état", 110/100),
   ("bon", "Bon état", 1),
   ("correct", "État correct", 95/100),
   ("travaux_legers", "Travaux légers à prévoir", 85/100),
   ("renovation", "Rénovation nécessaire", 70/100),
   ("gros_travaux", "Gros travaux", 55/100)]

/-- `STATES.get(etat, \x7b\x7d).get("label", "Non déterminé")`. -/
def states_label (k : String) : String :=
  match STATES.find? (fun s => s.1 == k) with
  | some s => s.2.1
  | none => "Non déterminé"

/-- `STATES.get(etat, \x7b\x7d).get("coef", 1.0)`. -/
def states_coef (k : String) : ℚ :=
  match STATES.find? (fun s => s.1 == k) with
  | some s => s.2.2
  | none => 1

/-- The extracted image features standing for a successfully decoded image. -/
structure VisionFeatures where
  width : ℕ
  height : ℕ
  colors : List (String × ℚ)
  texture_score : ℚ
  horizontal_lines : List ℕ
deriving DecidableEq

/-- `next((c.get("value", 0) for c in colors if c.get("name") == "variance"), 0)`. -/
def variance_of (colors : List (String × ℚ)) : ℚ :=
  match colors.find? (fun c => c.1 == "variance") with
  | some c => c.2
  | none => 0

/-- `_guess_property_type`. -/
def guess_property_type (colors : List (String × ℚ)) (aspect : ℚ)
    (horizontal_lines : List ℕ) : String :=
  let has_vegetation := colors.any (fun c => c.1 == "végétation")
  let many_lines := horizontal_lines.length > 15
  let is_tall := aspect < 8/10
  if many_lines && is_tall then "immeuble"
  else if has_vegetation && (aspect > 15/10) then "maison"
  else if !many_lines && !has_vegetation then
    (if variance_of colors < 500 then "terrain" else "maison")
  else "maison"

/-- `_guess_state`. -/
def guess_state (colors : List (String × ℚ)) (texture_score : ℚ) : String :=
  let variance := variance_of colors
  let has_light := colors.any (fun c => c.1 == "blanc/clair")
  if has_light && decide (texture_score < 15) && decide (variance < 2000) then "neuf"
  else if has_light && decide (texture_score < 25) then "tres_bon"
  else if texture_score < 35 then "bon"
  else if texture_score < 50 then "correct"
  else if texture_score < 70 then "travaux_legers"
  else "renovation"

/-- The line-coalescing loop of `_estimate_floors`: keep a line when the kept
list is empty or the line is more than `min_distance` after the last kept. -/
def filter_lines (min_distance : ℚ) : List ℕ → List ℕ → List ℕ
  | [], kept => kept.reverse
  | l :: ls, [] => filter_lines min_distance ls [l]
  | l :: ls, k :: ks =>
    if (l : ℚ) - (k : ℚ) > min_distance then filter_lines min_distance ls (l :: k :: ks)
    else filter_lines min_distance ls (k :: ks)

/-- `_estimate_floors`. -/
def estimate_floors (horizontal_lines : List ℕ) (image_height : ℕ) : ℤ :=
  if horizontal_lines = [] then 1
  else
    let filtered := filter_lines ((image_height : ℚ) / 10)
      (horizontal_lines.mergeSort (fun a b => a ≤ b)) []
    let estimated : ℤ := max 1 ((filtered.length : ℤ) / 3)
    min estimated 10

/-- `VisionAnalyzer._calculate_confidence` (image-quality confidence). -/
def calculate_confidence (width height : ℕ) (colors : List (String × ℚ))
    (texture_score : ℚ) : ℚ :=
  let confidence : ℚ := 50
  let min_dim := min width height
  let confidence := if min_dim ≥ 1000 then confidence + 15
    else if min_dim ≥ 500 then confidence + 10
    else if min_dim < 200 then confidence - 20
    else confidence
  let variance := variance_of colors
  let confidence := if 500 < variance ∧ variance < 5000 then confidence + 10 else confidence
  let confidence := if 10 < texture_score ∧ texture_score < 60 then confidence + 10 else confidence
  min 95 (max 20 confidence)

/-- `_analyze_heuristic` (the `use_ml = False` path taken by the deployed
analyzer), assembled over the extracted features. -/
def analyze_heuristic (f : VisionFeatures) : Assessment :=
  let aspect : ℚ := (f.width : ℚ) / (f.height : ℚ)
  let type_bien := guess_property_type f.colors aspect f.horizontal_lines
  let etat := guess_state f.colors f.texture_score
  let etages := estimate_floors f.horizontal_lines f.height
  let confidence := calculate_confidence f.width f.height f.colors f.texture_score
  { type_bien := some type_bien,
    type_bien_label := some (PROPERTY_TYPES type_bien),
    etat_exterieur := some etat,
    etat_label := some (states_label etat),
    coefficient_etat := some (states_coef etat),
    nombre_etages_estime := some etages,
    surface_estimee_vision := none,
    score_confiance := some confidence,
    methode := some "heuristic",
    nombre_photos_analysees := none,
    analyses_individuelles := none }

/-- `_get_fallback_analysis`. -/
def get_fallback_analysis : Assessment :=
  { type_bien := some "inconnu",
    type_bien_label := some "Type indéterminé",
    etat_exterieur := some "correct",
    etat_label := some "État standard (non déterminé)",
    coefficient_etat := some 1,
    nombre_etages_estime := some 1,
    surface_estimee_vision := none,
    score_confiance := some 30,
    methode := some "fallback",
    nombre_photos_analysees := none,
    analyses_individuelles := none }

/-- `analyze`: image bytes that decode (and survive the numpy feature
extraction) yield `some features`; undecodable bytes, or any exception in
the pipeline, are the `none` case, which the source catches and answers
with the fallback analysis. -/
def analyze (decoded : Option VisionFeatures) : Assessment :=
  match decoded with
  | none => get_fallback_analysis
  | some f => analyze_heuristic f

/-- `sum(coefs) / len(coefs)` over `coefficient_etat` (default 1.0). -/
def avg_coef (analyses : List Assessment) : ℚ :=
  let coefs := analyses.map (fun a => a.coefficient_etat.getD 1)
  coefs.sum / (coefs.length : ℚ)

/--
`merge_analyses`.  The property-type vote iterates over `set(types)`, whose
iteration order CPython does not specify (string hashing is randomized); the
embedding takes that order as the explicit parameter `set_order`, constrained
in theorems to enumerate exactly the distinct elements of `types`.
-/
def merge_analyses (set_order : List String) : List Assessment → Assessment
  | [] => get_fallback_analysis
  | [a] => a
  | analyses@(_ :: _ :: _) =>
    let types := analyses.map (fun a => a.type_bien.getD "inconnu")
    let type_bien := pyMaxByCount types set_order
    let avg := avg_coef analyses
    let etat := match STATES.find? (fun s => decide (|s.2.2 - avg| < 5/100)) with
      | some s => s.1
      | none => "bon"
    let etages := pyMaxZ (analyses.map (fun a => a.nombre_etages_estime.getD 1))
    let base_confidence := pyMaxQ (analyses.map (fun a => a.score_confiance.getD 50))
    let boosted_confidence := min 95 (base_confidence + (analyses.length : ℚ) * 5)
    { type_bien := some type_bien,
      type_bien_label := some (PROPERTY_TYPES type_bien),
      etat_exterieur := some etat,
      etat_label := some (states_label etat),
      coefficient_etat := some avg,
      nombre_etages_estime := some etages,
      surface_estimee_vision := none,
      score_confiance := some boosted_confidence,
      methode := some "fusion_multi_photos",
      nombre_photos_analysees := some analyses.length,
      analyses_individuelles := some (analyses.map (fun a => a.score_confiance.getD 0)) }

end VisionAnalyzer

/-! ## EstimationEngine (src/backend/services/estimation.py)

The engine is a pure function of its input dicts plus the wall-clock month,
which the embedding takes as the explicit parameter `mois_actuel`.  The
response fields that merely echo or reformat the inputs (`_format_*`,
`sources_utilisees`, `avertissements`, `date_estimation`) are outside the
claims and are not carried in `EstimationResult`.
-/

/-- The cadastre payload dict as read by the engine. -/
structure Cadastre where
  numero_parcelle : Option String
  -- the source key is "section"; `section` is a Lean keyword
  section_ : Option String
  surface_terrain : Option ℚ
  surface_batie : Option ℚ
  annee_construction : Option ℤ
  source : Option String
deriving DecidableEq

/-- The DVF statistics payload dict as read by the engine. -/
structure Dvf where
  prix_m2_moyen : Option ℚ
  prix_m2_median : Option ℚ
  ecart_type : Option ℚ
  nb_transactions : Option ℤ
  source : Option String
deriving DecidableEq

/-- The DPE payload dict as read by the engine (only `classe_energie` feeds
the computation; a present-but-empty dict behaves like `classe_energie =
none` throughout the engine). -/
structure Dpe where
  classe_energie : Option String
deriving DecidableEq

namespace EstimationEngine

/-- `COEF_ETAGES.get(k, 1.0)`. -/
def COEF_ETAGES (k : ℤ) : ℚ :=
  if k = 1 then 1
  else if k = 2 then 105/100
  else if k = 3 then 103/100
  else if k = 4 then 102/100
  else if k = 5 then 1
  else 1

/-- `RATIO_SURFACE.get(type_bien, 0.30)`. -/
def RATIO_SURFACE (t : String) : ℚ :=
  match t with
  | "maison" => 35/100
  | "appartement" => 1
  | "immeuble" => 60/100
  | "terrain" => 0
  | "local_commercial" => 50/100
  | "inconnu" => 30/100
  | _ => 30/100

/-- `COEF_SAISON.get(mois, 1.0)`. -/
def COEF_SAISON (m : ℕ) : ℚ :=
  match m with
  | 1 => 98/100
  | 2 => 99/100
  | 3 => 101/100
  | 4 => 102/100
  | 5 => 103/100
  | 6 => 102/100
  | 7 => 1
  | 8 => 99/100
  | 9 => 102/100
  | 10 => 101/100
  | 11 => 99/100
  | 12 => 98/100
  | _ => 1

/-- The per-type default surfaces of `_calculate_surface_habitable`. -/
def default_surfaces (t : String) : ℚ :=
  match t with
  | "maison" => 100
  | "appartement" => 70
  | "immeuble" => 500
  | "terrain" => 0
  | "local_commercial" => 150
  | "inconnu" => 80
  | _ => 80

/-- `_calculate_surface_habitable`. -/
def calculate_surface_habitable (surface_terrain : ℚ) (surface_batie : Option ℚ)
    (type_bien : String) (etages : ℤ) : ℚ :=
  if truthyPosQ surface_batie then
    (surface_batie.getD 0) * 85/100 * ((max 1 etages : ℤ) : ℚ)
  else if surface_terrain > 0 then
    let r := RATIO_SURFACE type_bien
    let surface_base := surface_terrain * r
    if type_bien = "maison" then surface_base * (etages : ℚ) * 8/10
    else surface_base
  else default_surfaces type_bien

/-- `_get_dpe_coefficient` (`coefficients.get(classe, 1.0)`). -/
def get_dpe_coefficient (classe : Option String) : ℚ :=
  match classe with
  | some "A" => 108/100
  | some "B" => 105/100
  | some "C" => 102/100
  | some "D" => 1
  | some "E" => 95/100
  | some "F" => 88/100
  | some "G" => 82/100
  | _ => 1

/-- `_calculate_margin` (the `ecart_type` argument is received but unused,
exactly as in the source). -/
def calculate_margin (ecart_type : ℚ) (nb_transactions : ℤ)
    (vision_confidence : ℚ) (has_dpe : Bool) : ℚ :=
  let marge : ℚ := 15/100
  let marge := if nb_transactions ≥ 20 then marge - 3/100
    else if nb_transactions ≥ 10 then marge - 2/100
    else if nb_transactions = 0 then marge + 5/100
    else marge
  let marge := if vision_confidence ≥ 80 then marge - 2/100
    else if vision_confidence < 50 then marge + 3/100
    else marge
  let marge := if has_dpe then marge - 2/100 else marge
  max (8/100) (min (30/100) marge)

/-- `dpe and dpe.get("classe_energie")` (present record with truthy class). -/
def dpe_classe_known (dpe : Option Dpe) : Bool :=
  match dpe with
  | some d => truthyStr d.classe_energie
  | none => false

/-- `_calculate_confidence` (global confidence, 0-100 scale, clamped). -/
def calculate_confidence (dvf : Dvf) (vision : Assessment) (cadastre : Cadastre)
    (dpe : Option Dpe) (multi_photo : Bool) : ℚ :=
  let score : ℚ := 40
  let nb_trans := dvf.nb_transactions.getD 0
  let score := score + (if nb_trans ≥ 20 then 20
    else if nb_trans ≥ 10 then 15
    else if nb_trans ≥ 5 then 10
    else if nb_trans > 0 then 5
    else 0)
  let vision_conf := vision.score_confiance.getD 50
  let score := score + (vision_conf - 50) * 2/10
  let score := score + (if cadastre.surface_terrain.getD 0 > 0 then 5 else 0)
  let score := score + (if truthyQ cadastre.surface_batie then 5 else 0)
  let score := score + (if truthyInt cadastre.annee_construction then 3 else 0)
  let score := score + (if dpe_classe_known dpe then 7 else 0)
  let score := score + (if multi_photo then 5 else 0)
  let score := score - (if (dvf.source.getD "").startsWith "Estimation" then 10 else 0)
  let score := score - (if cadastre.source = some "fallback" then 10 else 0)
  max 15 (min 95 score)

/-- `_assess_data_quality`. -/
def assess_data_quality (cadastre : Cadastre) (dvf : Dvf) (vision : Assessment)
    (dpe : Option Dpe) : String :=
  let points : ℚ :=
    (if dvf.nb_transactions.getD 0 ≥ 10 then 3
     else if dvf.nb_transactions.getD 0 > 0 then 1 else 0)
    + (if cadastre.surface_terrain.getD 0 > 0 then 2 else 0)
    + (if cadastre.source ≠ some "fallback" then 1 else 0)
    + (if vision.score_confiance.getD 0 ≥ 70 then 2
       else if vision.score_confiance.getD 0 ≥ 50 then 1 else 0)
    + (if dpe_classe_known dpe then 2 else 0)
  let r := points / 10
  if r ≥ 8/10 then "Excellente"
  else if r ≥ 6/10 then "Bonne"
  else if r ≥ 4/10 then "Moyenne"
  else if r ≥ 2/10 then "Limitée"
  else "Faible"

/-- The computed fields of the estimation response dict. -/
structure EstimationResult where
  surface_terrain : ℚ
  surface_habitable_estimee : ℚ
  prix_m2_secteur : ℚ
  prix_m2_ajuste : ℚ
  prix_total_estime : ℤ
  prix_bas : ℤ
  prix_haut : ℤ
  confiance : ℚ
  qualite_donnees : String
  coefficient_etat : ℚ
  coefficient_dpe : ℚ
  coefficient_etages : ℚ
  coefficient_saison : ℚ
  coefficient_total : ℚ
  marge_erreur_pct : ℚ
deriving DecidableEq

/-- `calculate`.  `mois_actuel` stands for `datetime.now().month`. -/
def calculate (cadastre : Cadastre) (dvf : Dvf) (vision : Assessment)
    (dpe : Option Dpe) (multi_photo_boost : Bool) (mois_actuel : ℕ) :
    EstimationResult :=
  let surface_terrain := cadastre.surface_terrain.getD 0
  let surface_batie_cadastre := cadastre.surface_batie
  let prix_m2_base := dvf.prix_m2_moyen.getD 3000
  let type_bien := vision.type_bien.getD "maison"
  let coef_etat := vision.coefficient_etat.getD 1
  let etages := vision.nombre_etages_estime.getD 1
  let surface_habitable :=
    calculate_surface_habitable surface_terrain surface_batie_cadastre type_bien etages
  let coef_total := coef_etat * COEF_ETAGES (min etages 5) * COEF_SAISON mois_actuel
  let coef_dpe := match dpe with
    | some d => get_dpe_coefficient d.classe_energie
    | none => 1
  let coef_total := if dpe.isSome then coef_total * coef_dpe else coef_total
  let prix_m2_ajuste := prix_m2_base * coef_total
  let prix_total := surface_habitable * prix_m2_ajuste
  let ecart_type := dvf.ecart_type.getD (prix_m2_base * 15/100)
  let marge_erreur := calculate_margin ecart_type (dvf.nb_transactions.getD 0)
    (vision.score_confiance.getD 50) dpe.isSome
  let prix_bas := prix_total * (1 - marge_erreur)
  let prix_haut := prix_total * (1 + marge_erreur)
  let confiance := calculate_confidence dvf vision cadastre dpe multi_photo_boost
  let qualite := assess_data_quality cadastre dvf vision dpe
  { surface_terrain := surface_terrain,
    surface_habitable_estimee := pyRoundTo 2 surface_habitable,
    prix_m2_secteur := pyRoundTo 2 prix_m2_base,
    prix_m2_ajuste := pyRoundTo 2 prix_m2_ajuste,
    prix_total_estime := pyRound0 prix_total,
    prix_bas := pyRound0 prix_bas,
    prix_haut := pyRound0 prix_haut,
    confiance := pyRoundTo 1 confiance,
    qualite_donnees := qualite,
    coefficient_etat := coef_etat,
    coefficient_dpe := coef_dpe,
    coefficient_etages := COEF_ETAGES (min etages 5),
    coefficient_saison := COEF_SAISON mois_actuel,
    coefficient_total := pyRoundTo 3 coef_total,
    marge_erreur_pct := pyRoundTo 1 (marge_erreur * 100) }

/-- The composite coefficient of `calculate` (steps 2-3), as a standalone
view; definitionally equal to the value `calculate` computes. -/
def engine_coef_total (vision : Assessment) (dpe : Option Dpe) (mois_actuel : ℕ) : ℚ :=
  let coef_total := vision.coefficient_etat.getD 1 *
    COEF_ETAGES (min (vision.nombre_etages_estime.getD 1) 5) * COEF_SAISON mois_actuel
  let coef_dpe := match dpe with
    | some d => get_dpe_coefficient d.classe_energie
    | none => 1
  if dpe.isSome then coef_total * coef_dpe else coef_total

/-- The pre-rounding total price of `calculate` (steps 4-5), as a standalone
view; definitionally equal to the value `calculate` computes. -/
def engine_prix_total (cadastre : Cadastre) (dvf : Dvf) (vision : Assessment)
    (dpe : Option Dpe) (mois_actuel : ℕ) : ℚ :=
  calculate_surface_habitable (cadastre.surface_terrain.getD 0) cadastre.surface_batie
      (vision.type_bien.getD "maison") (vision.nombre_etages_estime.getD 1) *
    (dvf.prix_m2_moyen.getD 3000 * engine_coef_total vision dpe mois_actuel)

/-- The margin `calculate` uses (step 6), as a standalone view;
definitionally equal to the value `calculate` computes. -/
def engine_marge (dvf : Dvf) (vision : Assessment) (dpe : Option Dpe) : ℚ :=
  calculate_margin (dvf.ecart_type.getD (dvf.prix_m2_moyen.getD 3000 * (15/100)))
    (dvf.nb_transactions.getD 0) (vision.score_confiance.getD 50) dpe.isSome

end EstimationEngine

/-! ## Tiered-fallback data acquisition (cadastre.py, dvf.py)

The HTTP transport is modelled as a pure oracle carrying the outcome of each
kind of request; an outcome is a raised timeout, any other raised exception,
or a response with a status code and an already-parsed JSON body.  Every
embedded service function additionally returns the list of requests it
issued, which makes "this path performs no network I/O" a statement about
the program rather than about the model.
-/

/-- Outcome of one HTTP call. -/
inductive Net (α : Type) where
  | timeout : Net α
  | exc : Net α
  | ok (status : ℤ) (body : α) : Net α
deriving DecidableEq

/-- Python `a or b` on optional strings (absent and `""` are falsy). -/
def pyOrStr (a b : Option String) : Option String :=
  if truthyStr a then a else b

/-- Python `a or b` on optional floats (absent and `0` are falsy). -/
def pyOrQ (a b : Option ℚ) : Option ℚ :=
  if truthyQ a then a else b

/-- Python `int(q)`: truncation toward zero. -/
def pyTrunc (q : ℚ) : ℤ := Int.tdiv q.num (q.den : ℤ)

namespace CadastreService

/-- The network requests `CadastreService.get_parcelle` can issue. -/
inductive CadReq where
  | apicarto : CadReq
  | gpu_document : CadReq
deriving DecidableEq

/-- A GeoJSON geometry dict (`type` plus polygon rings). -/
structure Geometry where
  type_ : Option String
  coordinates : List (List (ℚ × ℚ))
deriving DecidableEq

/-- The `properties` (plus `geometry`) of one APICarto feature. -/
structure CadFeature where
  numero : Option String
  section_ : Option String
  prefixe : Option String
  code_com : Option String
  commune : Option String
  nom_com : Option String
  code_insee : Option String
  code_dep : Option String
  contenance : Option ℚ
  geometry : Option Geometry
deriving DecidableEq

/-- One feature of the building (BD TOPO) lookup. -/
structure BatFeature where
  hauteur : Option ℚ
deriving DecidableEq

/-- The transport oracle for the two requests of the cadastre service. -/
structure CadTransport where
  apicarto : Net (List CadFeature)
  gpu_document : Net (List BatFeature)

/-- The cadastre record dict built by the service (wall-clock `date_requete`
omitted; keys a given path does not set are `none`). -/
structure CadRecord where
  numero_parcelle : Option String
  section_ : Option String
  prefixe : Option String
  code_commune : Option String
  commune : Option String
  code_insee : Option String
  code_departement : Option String
  surface_terrain : ℚ
  surface_batie : Option ℚ
  annee_construction : Option ℤ
  geometry : Option Geometry
  surface_calculee : Option ℚ
  source : String
  nombre_etages_cadastre : Option ℤ
  avertissement : Option String
deriving DecidableEq

/-- The signed doubled shoelace sum of `_calculate_surface_from_geometry`:
the source's indexed loop over `ring[i]` and `ring[(i+1) % n]` is written
here as a fold over `ring` zipped with its rotation by one. -/
def shoelace (ring : List (ℚ × ℚ)) : ℚ :=
  ((ring.zip (ring.rotate 1)).map
    (fun p => p.1.1 * p.2.2 - p.2.1 * p.1.2)).sum

/-- `_calculate_surface_from_geometry`. -/
def calculate_surface_from_geometry (geometry : Geometry) : Option ℚ :=
  if geometry.type_ ≠ some "Polygon" then none
  else
    match geometry.coordinates with
    | [] => none
    | ring :: _ =>
      if ring = [] then none
      else
        let area := |shoelace ring| / 2
        let area_m2 := area * 111000 * 80000
        some (pyRoundTo 2 area_m2)

/-- `_get_fallback_data` (tier 3): a fixed record, built locally. -/
def get_fallback_data (lat lon : ℚ) : CadRecord :=
  { numero_parcelle := none,
    section_ := none,
    prefixe := none,
    code_commune := none,
    commune := none,
    code_insee := none,
    code_departement := none,
    surface_terrain := 0,
    surface_batie := none,
    annee_construction := none,
    geometry := none,
    surface_calculee := none,
    source := "fallback",
    nombre_etages_cadastre := none,
    avertissement := some "Données cadastrales non disponibles - estimation basée uniquement sur la vision et DVF" }

/-- The floor-count update of `_enrich_with_batiments`: each building with a
truthy `hauteur` overwrites `nombre_etages_cadastre` with
`max(1, int(hauteur / 3))`. -/
def enrich_update (bats : List BatFeature) (init : Option ℤ) : Option ℤ :=
  bats.foldl
    (fun acc b =>
      if truthyQ b.hauteur then some (max 1 (pyTrunc (b.hauteur.getD 0 / 3)))
      else acc)
    init

/-- `_enrich_with_batiments`: issues the building lookup only when the record
has a truthy geometry; any failure leaves the record unchanged. -/
def enrich_with_batiments (t : CadTransport) (cadastre_data : CadRecord) :
    CadRecord × List CadReq :=
  match cadastre_data.geometry with
  | none => (cadastre_data, [])
  | some _ =>
    match t.gpu_document with
    | Net.ok status bats =>
      if status = 200 then
        ({ cadastre_data with
            nombre_etages_cadastre :=
              enrich_update bats cadastre_data.nombre_etages_cadastre },
         [CadReq.gpu_document])
      else (cadastre_data, [CadReq.gpu_document])
    | _ => (cadastre_data, [CadReq.gpu_document])

/-- `get_parcelle`: primary APICarto point lookup, optional building
enrichment, tier-3 fallback on error, timeout, non-200 or empty result. -/
def get_parcelle (t : CadTransport) (lat lon : ℚ) : CadRecord × List CadReq :=
  match t.apicarto with
  | Net.timeout => (get_fallback_data lat lon, [CadReq.apicarto])
  | Net.exc => (get_fallback_data lat lon, [CadReq.apicarto])
  | Net.ok status features =>
    if status ≠ 200 then (get_fallback_data lat lon, [CadReq.apicarto])
    else
      match features with
      | [] => (get_fallback_data lat lon, [CadReq.apicarto])
      | feature :: _ =>
        let props := feature
        let surface_calculee := feature.geometry.bind calculate_surface_from_geometry
        let result : CadRecord :=
          { numero_parcelle := props.numero,
            section_ := props.section_,
            prefixe := props.prefixe,
            code_commune := pyOrStr props.code_com props.commune,
            commune := pyOrStr props.nom_com props.commune,
            code_insee := pyOrStr props.code_insee
              (some (props.code_dep.getD "" ++ props.code_com.getD "")),
            code_departement := props.code_dep,
            surface_terrain := props.contenance.getD 0,
            surface_batie := none,
            annee_construction := none,
            geometry := feature.geometry,
            surface_calculee := surface_calculee,
            source := "APICarto IGN",
            nombre_etages_cadastre := none,
            avertissement := none }
        let enriched := enrich_with_batiments t result
        (enriched.1, CadReq.apicarto :: enriched.2)

end CadastreService

namespace DVFService

/-- The network requests the DVF service can issue. -/
inductive DvfReq where
  | cquest : DvfReq
  | geo_communes : DvfReq
deriving DecidableEq

/-- One raw transaction dict.  `date_mutation` is the parsed mutation date as
a day number (`none` when absent or unparseable, which `_parse_date` maps to
`datetime.min`). -/
structure DvfTransaction where
  date_mutation : Option ℤ
  valeur_fonciere : Option ℚ
  prix : Option ℚ
  surface_reelle_bati : Option ℚ
  surface_bati : Option ℚ
  surface : Option ℚ
  type_local : Option String
  adresse : Option String
  numero_voie : Option String
  type_voie : Option String
  voie : Option String
deriving DecidableEq

/-- One commune returned by the geo API. -/
structure Commune where
  code : Option String
deriving DecidableEq

/-- The transport oracle for the DVF service. -/
structure DvfTransport where
  cquest : Net (List DvfTransaction)
  geo_communes : Net (List Commune)

/-- A `transactions_detail` entry. -/
structure DvfDetail where
  date : Option ℤ
  prix : ℚ
  surface : ℚ
  prix_m2 : ℚ
  type_local : String
  adresse : String
deriving DecidableEq

/-- The DVF statistics dict (wall-clock `date_requete` omitted).
`ecart_type` of the observed tier is `statistics.stdev`, a floating-point
square root with no exact rational value, so the observed tier stores `none`
there; the deterministic tiers store their exact rational values.  No claim
refers to that field. -/
structure DvfStats where
  prix_m2_moyen : ℚ
  prix_m2_median : ℚ
  prix_m2_min : ℚ
  prix_m2_max : ℚ
  ecart_type : Option ℚ
  nb_transactions : ℤ
  periode : String
  rayon_recherche : ℤ
  transactions_detail : List DvfDetail
  source : String
  avertissement : Option String
deriving DecidableEq

/-- `datetime.min` on the day-number scale of the embedding. -/
def datetime_min : ℤ := -(10 ^ 9)

/-- `_parse_date`: absent or unparseable dates become `datetime.min`. -/
def parse_date (d : Option ℤ) : ℤ :=
  match d with
  | some x => x
  | none => datetime_min

/-- `statistics.mean`. -/
def mean (l : List ℚ) : ℚ := l.sum / (l.length : ℚ)

/-- `statistics.median`: middle of the sorted list, or the average of the
two middle elements for an even length. -/
def median (l : List ℚ) : ℚ :=
  let s := l.mergeSort (fun a b => a ≤ b)
  let n := s.length
  if n % 2 = 1 then s.getD (n / 2) 0
  else (s.getD (n / 2 - 1) 0 + s.getD (n / 2) 0) / 2

/-- Python `min` over a nonempty list of floats (`0` on `[]`, unreachable). -/
def pyMinQ : List ℚ → ℚ
  | [] => 0
  | x :: xs => xs.foldl min x

/-- `_get_commune_code`: one geo-API request; `None` unless the response is
a 200 with a nonempty commune list. -/
def get_commune_code (t : DvfTransport) : Option String × List DvfReq :=
  match t.geo_communes with
  | Net.ok status communes =>
    if status = 200 then
      match communes with
      | [] => (none, [DvfReq.geo_communes])
      | c :: _ => (c.code, [DvfReq.geo_communes])
    else (none, [DvfReq.geo_communes])
  | _ => (none, [DvfReq.geo_communes])

/-- `_fetch_cquest`: the primary transaction query; `[]` on any failure. -/
def fetch_cquest (t : DvfTransport) : List DvfTransaction × List DvfReq :=
  match t.cquest with
  | Net.ok status body =>
    (if status = 200 then body else [], [DvfReq.cquest])
  | _ => ([], [DvfReq.cquest])

/-- `_fetch_etalab`: resolves the commune code (one geo request) and then
returns `[]` on both branches — the Etalab query itself is unimplemented. -/
def fetch_etalab (t : DvfTransport) : List DvfTransaction × List DvfReq :=
  let r := get_commune_code t
  match r.1 with
  | none => ([], r.2)
  | some _ => ([], r.2)

/-- `_estimate_default_price`: the deterministic geographic price bands. -/
def estimate_default_price (lat lon : ℚ) : ℚ :=
  if 488/10 ≤ lat ∧ lat ≤ 4895/100 ∧ 22/10 ≤ lon ∧ lon ≤ 25/10 then 10500
  else if 485/10 ≤ lat ∧ lat ≤ 492/10 ∧ 18/10 ≤ lon ∧ lon ≤ 3 then 4500
  else if 457/10 ≤ lat ∧ lat ≤ 458/10 ∧ 48/10 ≤ lon ∧ lon ≤ 49/10 then 5000
  else if 432/10 ≤ lat ∧ lat ≤ 434/10 ∧ 53/10 ≤ lon ∧ lon ≤ 55/10 then 3500
  else if 448/10 ≤ lat ∧ lat ≤ 449/10 ∧ -6/10 ≤ lon ∧ lon ≤ -5/10 then 4500
  else if 435/10 ≤ lat ∧ lat ≤ 438/10 ∧ 68/10 ≤ lon ∧ lon ≤ 75/10 then 6000
  else if 43 ≤ lat ∧ lat ≤ 50 ∧ -2 ≤ lon ∧ lon ≤ 8 then 3000
  else 1800

/-- `_get_commune_stats` (tier 3): first resolves the commune code — one geo
request whose result the source never uses — then builds the deterministic
regional-default record.  (Its `except` branch, which would return
`get_fallback_stats`, is unreachable because `_get_commune_code` catches its
own exceptions.) -/
def get_commune_stats (t : DvfTransport) (lat lon : ℚ) : DvfStats × List DvfReq :=
  let r := get_commune_code t
  let prix_defaut := estimate_default_price lat lon
  ({ prix_m2_moyen := prix_defaut,
     prix_m2_median := prix_defaut * 95/100,
     prix_m2_min := prix_defaut * 7/10,
     prix_m2_max := prix_defaut * 13/10,
     ecart_type := some (prix_defaut * 15/100),
     nb_transactions := 0,
     periode := "Estimation moyenne",
     rayon_recherche := 0,
     transactions_detail := [],
     source := "Estimation régionale (données DVF indisponibles)",
     avertissement := some "Prix basé sur les moyennes régionales - précision limitée" },
   r.2)

/-- `_get_fallback_stats`: the fixed national default (unreachable in the
embedding since nothing in the commune-stats path raises; kept from source). -/
def get_fallback_stats : DvfStats :=
  { prix_m2_moyen := 3000,
    prix_m2_median := 2800,
    prix_m2_min := 1500,
    prix_m2_max := 5000,
    ecart_type := some 800,
    nb_transactions := 0,
    periode := "Estimation par défaut",
    rayon_recherche := 0,
    transactions_detail := [],
    source := "Estimation nationale moyenne",
    avertissement := some "Aucune donnée DVF disponible - estimation très approximative" }

/-- The per-transaction extraction of the pricing loop of `get_stats`:
`valeur_fonciere or prix`, the surface `or`-chain, the coherence filter
`prix and surface and surface > 10` and the sanity band `500 ≤ prix_m2 ≤
20000`.  Returns `(transaction, prix, surface, prix_m2)` for survivors. -/
def extract_entry (tr : DvfTransaction) : Option (DvfTransaction × ℚ × ℚ × ℚ) :=
  let prix := pyOrQ tr.valeur_fonciere tr.prix
  let surface := pyOrQ tr.surface_reelle_bati (pyOrQ tr.surface_bati tr.surface)
  if truthyQ prix ∧ truthyQ surface ∧ surface.getD 0 > 10 then
    let prix_m2 := prix.getD 0 / surface.getD 0
    if 500 ≤ prix_m2 ∧ prix_m2 ≤ 20000 then
      some (tr, prix.getD 0, surface.getD 0, prix_m2)
    else none
  else none

/-- The `transactions_detail` entry built for one surviving transaction. -/
def detail_of (e : DvfTransaction × ℚ × ℚ × ℚ) : DvfDetail :=
  { date := e.1.date_mutation,
    prix := e.2.1,
    surface := e.2.2.1,
    prix_m2 := pyRoundTo 2 e.2.2.2,
    type_local := e.1.type_local.getD "Inconnu",
    adresse :=
      if truthyStr e.1.adresse then e.1.adresse.getD ""
      else e.1.numero_voie.getD "" ++ " " ++ e.1.type_voie.getD "" ++ " "
        ++ e.1.voie.getD "" }

/-- `get_stats`: primary CQuest query, Etalab fallback, date-window filter
(with the 20-most-recent rescue), pricing loop, and the tier-3 commune
default whenever no usable transaction survives.  `today` stands for
`datetime.now()` on the day-number scale. -/
def get_stats (t : DvfTransport) (lat lon : ℚ) (radius_meters : ℤ)
    (months : ℤ) (today : ℤ) : DvfStats × List DvfReq :=
  let f1 := fetch_cquest t
  let fetched :=
    if f1.1 = [] then
      let f2 := fetch_etalab t
      (f2.1, f1.2 ++ f2.2)
    else f1
  if fetched.1 = [] then
    let cs := get_commune_stats t lat lon
    (cs.1, fetched.2 ++ cs.2)
  else
    let date_limite := today - months * 30
    let recentes := fetched.1.filter (fun tr => parse_date tr.date_mutation ≥ date_limite)
    let transactions_recentes := if recentes = [] then fetched.1.take 20 else recentes
    let entries := transactions_recentes.filterMap extract_entry
    let prix_m2_list := entries.map (fun e => e.2.2.2)
    if prix_m2_list = [] then
      let cs := get_commune_stats t lat lon
      (cs.1, fetched.2 ++ cs.2)
    else
      ({ prix_m2_moyen := pyRoundTo 2 (mean prix_m2_list),
         prix_m2_median := pyRoundTo 2 (median prix_m2_list),
         prix_m2_min := pyRoundTo 2 (pyMinQ prix_m2_list),
         prix_m2_max := pyRoundTo 2 (pyMaxQ prix_m2_list),
         ecart_type := none,
         nb_transactions := (prix_m2_list.length : ℤ),
         periode := "Derniers " ++ toString months ++ " mois",
         rayon_recherche := radius_meters,
         transactions_detail := (entries.map detail_of).take 10,
         source := "DVF Etalab",
         avertissement := none },
       fetched.2)

end DVFService

/-! ## Spec-side definitions

The definitions in the `Spec` namespace follow the WORDS of the spec/claims
(not the source); they exist to be compared with the source-derived
definitions above in refinement theorems and counterexamples.
-/

namespace Spec

/-- The tiered transaction-count bonus, as both spec and code state it. -/
def transactions_bonus (nb : ℤ) : ℚ :=
  if nb ≥ 20 then 20
  else if nb ≥ 10 then 15
  else if nb ≥ 5 then 10
  else if nb > 0 then 5
  else 0

/-- Clamp to the closed interval [15, 95]. -/
def clamp_15_95 (s : ℚ) : ℚ := max 15 (min 95 s)

/-- The global confidence formula exactly as claim C4 words it, with a
+5 bonus for a known construction year. -/
def claimed_confidence (dvf : Dvf) (vision : Assessment) (cadastre : Cadastre)
    (dpe : Option Dpe) (multi_photo : Bool) : ℚ :=
  clamp_15_95 (40
    + transactions_bonus (dvf.nb_transactions.getD 0)
    + (vision.score_confiance.getD 50 - 50) * 2/10
    + (if cadastre.surface_terrain.getD 0 > 0 then 5 else 0)
    + (if truthyQ cadastre.surface_batie then 5 else 0)
    + (if truthyInt cadastre.annee_construction then 5 else 0)
    + (if EstimationEngine.dpe_classe_known dpe then 7 else 0)
    + (if multi_photo then 5 else 0)
    - (if (dvf.source.getD "").startsWith "Estimation" then 10 else 0)
    - (if cadastre.source = some "fallback" then 10 else 0))

/-- Claim C4 amended: the same formula with the construction-year bonus the
code actually grants, +3. -/
def amended_confidence (dvf : Dvf) (vision : Assessment) (cadastre : Cadastre)
    (dpe : Option Dpe) (multi_photo : Bool) : ℚ :=
  clamp_15_95 (40
    + transactions_bonus (dvf.nb_transactions.getD 0)
    + (vision.score_confiance.getD 50 - 50) * 2/10
    + (if cadastre.surface_terrain.getD 0 > 0 then 5 else 0)
    + (if truthyQ cadastre.surface_batie then 5 else 0)
    + (if truthyInt cadastre.annee_construction then 3 else 0)
    + (if EstimationEngine.dpe_classe_known dpe then 7 else 0)
    + (if multi_photo then 5 else 0)
    - (if (dvf.source.getD "").startsWith "Estimation" then 10 else 0)
    - (if cadastre.source = some "fallback" then 10 else 0))

/-- The merged condition class as claim C5 words it: the enumerated class
whose coefficient is CLOSEST to the mean, selected whenever it is within
absolute difference 0.05, otherwise "bon". -/
def claimed_condition_class (avg : ℚ) : String :=
  match VisionAnalyzer.STATES.foldl
      (fun best s =>
        match best with
        | none => some (s.1, |s.2.2 - avg|)
        | some b => if |s.2.2 - avg| < b.2 then some (s.1, |s.2.2 - avg|) else b)
      none with
  | some b => if b.2 ≤ 5/100 then b.1 else "bon"
  | none => "bon"

/-- Claim C5 amended: the FIRST class in the fixed enumeration order whose
coefficient differs from the mean by strictly less than 0.05; "bon" when
none does. -/
def amended_condition_class (avg : ℚ) : String :=
  if |(115/100 : ℚ) - avg| < 5/100 then "neuf"
  else if |(110/100 : ℚ) - avg| < 5/100 then "tres_bon"
  else if |(1 : ℚ) - avg| < 5/100 then "bon"
  else if |(95/100 : ℚ) - avg| < 5/100 then "correct"
  else if |(85/100 : ℚ) - avg| < 5/100 then "travaux_legers"
  else if |(70/100 : ℚ) - avg| < 5/100 then "renovation"
  else if |(55/100 : ℚ) - avg| < 5/100 then "gros_travaux"
  else "bon"

/-- The type vote as claim C7 words it: the first type, in INPUT order,
whose number of occurrences is maximal (`""` on an empty list, unreachable). -/
def claimed_type_vote (types : List String) : String :=
  match types.find? (fun t => types.all (fun u => types.count u ≤ types.count t)) with
  | some t => t
  | none => ""

end Spec

/-- An admissible iteration order of Python's `set(types)`: an enumeration,
without duplicates, of exactly the distinct elements of `types`.  CPython
guarantees nothing more about the order of a set of strings. -/
def set_order_admissible (ord types : List String) : Prop :=
  ord.Nodup ∧ ∀ s, s ∈ ord ↔ s ∈ types

/-- A failed or empty primary response, for the cadastre service: raised,
timed out, non-200, or an empty feature list — every condition under which
`get_parcelle` falls back. -/
def CadastreService.primary_failed : Net (List CadastreService.CadFeature) → Prop
  | Net.timeout => True
  | Net.exc => True
  | Net.ok status body => status ≠ 200 ∨ body = []

/-- A failed or empty primary response, for the DVF service. -/
def DVFService.primary_failed : Net (List DVFService.DvfTransaction) → Prop
  | Net.timeout => True
  | Net.exc => True
  | Net.ok status body => status ≠ 200 ∨ body = []

/-! ## Shared lemmas -/

theorem pyRound0_lb (x : ℚ) : ⌊x⌋ ≤ pyRound0 x := by
  unfold pyRound0; split_ifs <;> omega

theorem pyRound0_ub (x : ℚ) : pyRound0 x ≤ ⌊x⌋ + 1 := by
  unfold pyRound0; split_ifs <;> omega

/-- Rounding half-to-even is monotone, so orderings survive `round(·, 0)`. -/
theorem pyRound0_mono (a b : ℚ) (hab : a ≤ b) : pyRound0 a ≤ pyRound0 b := by
  rcases lt_or_le ⌊a⌋ ⌊b⌋ with h | h
  · have h1 := pyRound0_ub a
    have h2 := pyRound0_lb b
    omega
  · have h' : ⌊a⌋ = ⌊b⌋ := le_antisymm (Int.floor_le_floor hab) h
    unfold pyRound0
    rw [h']
    split_ifs <;> first | omega | linarith

theorem calculate_margin_lb (e : ℚ) (nb : ℤ) (v : ℚ) (hd : Bool) :
    8/100 ≤ EstimationEngine.calculate_margin e nb v hd := by
  simp only [EstimationEngine.calculate_margin]
  exact le_max_left _ _

theorem calculate_margin_ub (e : ℚ) (nb : ℤ) (v : ℚ) (hd : Bool) :
    EstimationEngine.calculate_margin e nb v hd ≤ 30/100 := by
  simp only [EstimationEngine.calculate_margin]
  exact max_le (by norm_num) (min_le_left _ _)

theorem COEF_ETAGES_pos (k : ℤ) : 0 < EstimationEngine.COEF_ETAGES k := by
  unfold EstimationEngine.COEF_ETAGES; split_ifs <;> norm_num

theorem COEF_SAISON_pos (m : ℕ) : 0 < EstimationEngine.COEF_SAISON m := by
  unfold EstimationEngine.COEF_SAISON; split <;> norm_num

theorem get_dpe_coefficient_pos (c : Option String) :
    0 < EstimationEngine.get_dpe_coefficient c := by
  unfold EstimationEngine.get_dpe_coefficient; split <;> norm_num

/-! ## Claims -/

/-- C2: `_calculate_margin` always lands in [0.08, 0.30],
`EstimationEngine._calculate_confidence` always lands in [15, 95], and the
VisualAssessor's image confidence (`VisionAnalyzer._calculate_confidence`)
always lands in [20, 95]. -/
theorem C2_bounds :
    (∀ (e : ℚ) (nb : ℤ) (v : ℚ) (hd : Bool),
      8/100 ≤ EstimationEngine.calculate_margin e nb v hd ∧
      EstimationEngine.calculate_margin e nb v hd ≤ 30/100) ∧
    (∀ (dvf : Dvf) (vision : Assessment) (cadastre : Cadastre)
        (dpe : Option Dpe) (m : Bool),
      15 ≤ EstimationEngine.calculate_confidence dvf vision cadastre dpe m ∧
      EstimationEngine.calculate_confidence dvf vision cadastre dpe m ≤ 95) ∧
    (∀ (w h : ℕ) (colors : List (String × ℚ)) (t : ℚ),
      20 ≤ VisionAnalyzer.calculate_confidence w h colors t ∧
      VisionAnalyzer.calculate_confidence w h colors t ≤ 95) := by
  refine ⟨fun e nb v hd => ⟨calculate_margin_lb e nb v hd, calculate_margin_ub e nb v hd⟩,
    fun dvf vision cadastre dpe m => ⟨?_, ?_⟩, fun w h colors t => ⟨?_, ?_⟩⟩
  · simp only [EstimationEngine.calculate_confidence]
    exact le_max_left _ _
  · simp only [EstimationEngine.calculate_confidence]
    exact max_le (by norm_num) (min_le_left _ _)
  · simp only [VisionAnalyzer.calculate_confidence]
    exact le_min (by norm_num) (le_max_left _ _)
  · simp only [VisionAnalyzer.calculate_confidence]
    exact min_le_left _ _

/-- C8: on bytes that do not decode as an image (and on any exception in
the pipeline), `analyze` returns the fixed fallback assessment: type
`inconnu`, condition `correct` with coefficient 1.0, confidence 30, method
tag `fallback`. -/
theorem C8_fallback_assessment :
    VisionAnalyzer.analyze none = VisionAnalyzer.get_fallback_analysis ∧
    (VisionAnalyzer.analyze none).type_bien = some "inconnu" ∧
    (VisionAnalyzer.analyze none).etat_exterieur = some "correct" ∧
    (VisionAnalyzer.analyze none).coefficient_etat = some 1 ∧
    (VisionAnalyzer.analyze none).score_confiance = some 30 ∧
    (VisionAnalyzer.analyze none).methode = some "fallback" := by
  refine ⟨rfl, ?_, ?_, ?_, ?_, ?_⟩ <;> decide

/-- C10: `merge_analyses` on an empty list does not fail; it returns the
same fixed fallback assessment used for undecodable images, whatever the
set iteration order. -/
theorem C10_merge_empty :
    ∀ set_order : List String,
      VisionAnalyzer.merge_analyses set_order [] = VisionAnalyzer.get_fallback_analysis ∧
      (VisionAnalyzer.merge_analyses set_order []).type_bien = some "inconnu" ∧
      (VisionAnalyzer.merge_analyses set_order []).coefficient_etat = some 1 ∧
      (VisionAnalyzer.merge_analyses set_order []).score_confiance = some 30 := by
  intro set_order
  exact ⟨rfl, rfl, rfl, rfl⟩

/-- C9: a DPE record whose energy class is absent or outside A-G gets
energy coefficient exactly 1.0; the mere presence of a DPE record lowers
the margin by exactly 0.02 (the clamp never interferes); and the +7
confidence bonus is withheld whenever the class itself is not known
(a present record with an absent/empty class scores exactly like no
record). -/
theorem C9_dpe_presence_vs_class :
    (∀ c : Option String,
      (∀ s, c = some s → s ∉ (["A", "B", "C", "D", "E", "F", "G"] : List String)) →
      EstimationEngine.get_dpe_coefficient c = 1) ∧
    (∀ (e : ℚ) (nb : ℤ) (v : ℚ),
      EstimationEngine.calculate_margin e nb v true =
        EstimationEngine.calculate_margin e nb v false - 2/100) ∧
    (∀ (dvf : Dvf) (vision : Assessment) (cadastre : Cadastre) (m : Bool) (d : Dpe),
      truthyStr d.classe_energie = false →
      EstimationEngine.calculate_confidence dvf vision cadastre (some d) m =
        EstimationEngine.calculate_confidence dvf vision cadastre none m) := by
  refine ⟨?_, ?_, ?_⟩
  · intro c hc
    unfold EstimationEngine.get_dpe_coefficient
    split
    any_goals rfl
    all_goals exact absurd (hc _ rfl) (by decide)
  · intro e nb v
    simp only [EstimationEngine.calculate_margin]
    split_ifs <;> first | exact ‹False›.elim | norm_num
  · intro dvf vision cadastre m d hd
    simp only [EstimationEngine.calculate_confidence, EstimationEngine.dpe_classe_known, hd]

/-- Witness for C9 at concrete inputs: class "Z" (outside A-G) has
coefficient 1.0, and a present-but-classless record scores like no record. -/
theorem C9_witness :
    EstimationEngine.get_dpe_coefficient (some "Z") = 1 ∧
    EstimationEngine.calculate_confidence ⟨none, none, none, none, none⟩
        ⟨none, none, none, none, none, none, none, none, none, none, none⟩
        ⟨none, none, none, none, none, none⟩ (some ⟨none⟩) false =
      EstimationEngine.calculate_confidence ⟨none, none, none, none, none⟩
        ⟨none, none, none, none, none, none, none, none, none, none, none⟩
        ⟨none, none, none, none, none, none⟩ none false :=
  ⟨C9_dpe_presence_vs_class.1 (some "Z")
      (by intro s hs; injection hs with h; subst h; decide),
   C9_dpe_presence_vs_class.2.2 _ _ _ false ⟨none⟩ (by decide)⟩

/-- The price fields of `calculate` are the banker's rounding of the
standalone views (all three equalities are definitional). -/
theorem calculate_price_fields (cadastre : Cadastre) (dvf : Dvf)
    (vision : Assessment) (dpe : Option Dpe) (multi : Bool) (mois : ℕ) :
    (EstimationEngine.calculate cadastre dvf vision dpe multi mois).prix_total_estime =
      pyRound0 (EstimationEngine.engine_prix_total cadastre dvf vision dpe mois) ∧
    (EstimationEngine.calculate cadastre dvf vision dpe multi mois).prix_bas =
      pyRound0 (EstimationEngine.engine_prix_total cadastre dvf vision dpe mois *
        (1 - EstimationEngine.engine_marge dvf vision dpe)) ∧
    (EstimationEngine.calculate cadastre dvf vision dpe multi mois).prix_haut =
      pyRound0 (EstimationEngine.engine_prix_total cadastre dvf vision dpe mois *
        (1 + EstimationEngine.engine_marge dvf vision dpe)) :=
  ⟨rfl, rfl, rfl⟩

/-- C4 fails as stated: with only the construction year known, the code
scores 40 + 3 = 43, while the claim's formula (+5 for a known construction
year) gives 45. -/
theorem C4_counterexample :
    EstimationEngine.calculate_confidence ⟨none, none, none, none, none⟩
        ⟨none, none, none, none, none, none, none, none, none, none, none⟩
        ⟨none, none, none, none, some 2000, none⟩ none false = 43 ∧
    Spec.claimed_confidence ⟨none, none, none, none, none⟩
        ⟨none, none, none, none, none, none, none, none, none, none, none⟩
        ⟨none, none, none, none, some 2000, none⟩ none false = 45 ∧
    (43 : ℚ) ≠ 45 := by
  refine ⟨by decide, by decide, by norm_num⟩

/-- C4 amended: the global confidence equals the claim's formula with the
construction-year bonus corrected from +5 to +3 (everything else as
claimed: base 40, tiered 20/15/10/5 transaction bonus,
(visionConfidence - 50) x 0.2, +5 land area, +5 built area, +7 energy
class, +5 multi-photo, -10 default/regional market source, -10 fallback
parcel source, clamped to [15, 95]). -/
theorem C4_amended_confidence_formula :
    ∀ (dvf : Dvf) (vision : Assessment) (cadastre : Cadastre)
      (dpe : Option Dpe) (m : Bool),
      EstimationEngine.calculate_confidence dvf vision cadastre dpe m =
        Spec.amended_confidence dvf vision cadastre dpe m := by
  intro dvf vision cadastre dpe m
  simp only [EstimationEngine.calculate_confidence, Spec.amended_confidence,
    Spec.clamp_15_95, Spec.transactions_bonus]

/-- C1 fails as stated: its stated preconditions (non-negative computed
surface, non-negative mean price) admit a vision payload with a negative
condition coefficient, making the total price negative and the rounded
bounds inverted: prix_total = -82320 < prix_bas = -65856. -/
theorem C1_counterexample :
    0 ≤ EstimationEngine.calculate_surface_habitable
        ((⟨none, none, some 100, none, none, none⟩ : Cadastre).surface_terrain.getD 0)
        (⟨none, none, some 100, none, none, none⟩ : Cadastre).surface_batie
        ((⟨some "maison", none, none, none, some (-1), some 1, none, some 50,
            none, none, none⟩ : Assessment).type_bien.getD "maison")
        ((⟨some "maison", none, none, none, some (-1), some 1, none, some 50,
            none, none, none⟩ : Assessment).nombre_etages_estime.getD 1) ∧
    (0 : ℚ) ≤ (⟨none, none, none, none, none⟩ : Dvf).prix_m2_moyen.getD 3000 ∧
    (EstimationEngine.calculate ⟨none, none, some 100, none, none, none⟩
        ⟨none, none, none, none, none⟩
        ⟨some "maison", none, none, none, some (-1), some 1, none, some 50,
          none, none, none⟩ none false 1).prix_total_estime = -82320 ∧
    (EstimationEngine.calculate ⟨none, none, some 100, none, none, none⟩
        ⟨none, none, none, none, none⟩
        ⟨some "maison", none, none, none, some (-1), some 1, none, some 50,
          none, none, none⟩ none false 1).prix_bas = -65856 ∧
    (EstimationEngine.calculate ⟨none, none, some 100, none, none, none⟩
        ⟨none, none, none, none, none⟩
        ⟨some "maison", none, none, none, some (-1), some 1, none, some 50,
          none, none, none⟩ none false 1).prix_total_estime <
      (EstimationEngine.calculate ⟨none, none, some 100, none, none, none⟩
        ⟨none, none, none, none, none⟩
        ⟨some "maison", none, none, none, some (-1), some 1, none, some 50,
          none, none, none⟩ none false 1).prix_bas := by
  refine ⟨by decide, by decide, by decide, by decide, by decide⟩

/-- C1 amended: whenever the computed habitable surface, the market mean
price per m2 AND the vision condition coefficient are non-negative (the
vision component only ever emits coefficients in [0.55, 1.15]), the
rounded prices satisfy prix_bas ≤ prix_total_estime ≤ prix_haut. -/
theorem C1_amended_price_order (cadastre : Cadastre) (dvf : Dvf)
    (vision : Assessment) (dpe : Option Dpe) (multi : Bool) (mois : ℕ)
    (hsurf : 0 ≤ EstimationEngine.calculate_surface_habitable
      (cadastre.surface_terrain.getD 0) cadastre.surface_batie
      (vision.type_bien.getD "maison") (vision.nombre_etages_estime.getD 1))
    (hprix : 0 ≤ dvf.prix_m2_moyen.getD 3000)
    (hcoef : 0 ≤ vision.coefficient_etat.getD 1) :
    (EstimationEngine.calculate cadastre dvf vision dpe multi mois).prix_bas ≤
      (EstimationEngine.calculate cadastre dvf vision dpe multi mois).prix_total_estime ∧
    (EstimationEngine.calculate cadastre dvf vision dpe multi mois).prix_total_estime ≤
      (EstimationEngine.calculate cadastre dvf vision dpe multi mois).prix_haut := by
  obtain ⟨hpt, hpb, hph⟩ := calculate_price_fields cadastre dvf vision dpe multi mois
  rw [hpt, hpb, hph]
  have hC : 0 ≤ EstimationEngine.engine_coef_total vision dpe mois := by
    have h1 : 0 ≤ vision.coefficient_etat.getD 1 *
        EstimationEngine.COEF_ETAGES (min (vision.nombre_etages_estime.getD 1) 5) *
        EstimationEngine.COEF_SAISON mois :=
      mul_nonneg (mul_nonneg hcoef (COEF_ETAGES_pos _).le) (COEF_SAISON_pos _).le
    unfold EstimationEngine.engine_coef_total
    cases dpe with
    | none => simpa using h1
    | some d =>
      simpa using mul_nonneg h1 (get_dpe_coefficient_pos d.classe_energie).le
  have hPT : 0 ≤ EstimationEngine.engine_prix_total cadastre dvf vision dpe mois := by
    unfold EstimationEngine.engine_prix_total
    exact mul_nonneg hsurf (mul_nonneg hprix hC)
  have hm1 : 8/100 ≤ EstimationEngine.engine_marge dvf vision dpe :=
    calculate_margin_lb _ _ _ _
  have hm2 : EstimationEngine.engine_marge dvf vision dpe ≤ 30/100 :=
    calculate_margin_ub _ _ _ _
  have hprod : 0 ≤ EstimationEngine.engine_prix_total cadastre dvf vision dpe mois *
      EstimationEngine.engine_marge dvf vision dpe :=
    mul_nonneg hPT (le_trans (by norm_num) hm1)
  constructor
  · apply pyRound0_mono
    nlinarith [hprod]
  · apply pyRound0_mono
    nlinarith [hprod]

/-- Witness for C1 amended at a concrete input (land 100 m2, house,
coefficient 1, month 1). -/
theorem C1_witness :
    (EstimationEngine.calculate ⟨none, none, some 100, none, none, none⟩
        ⟨none, none, none, none, none⟩
        ⟨some "maison", none, none, none, some 1, some 1, none, some 50,
          none, none, none⟩ none false 1).prix_bas ≤
      (EstimationEngine.calculate ⟨none, none, some 100, none, none, none⟩
        ⟨none, none, none, none, none⟩
        ⟨some "maison", none, none, none, some 1, some 1, none, some 50,
          none, none, none⟩ none false 1).prix_total_estime ∧
    (EstimationEngine.calculate ⟨none, none, some 100, none, none, none⟩
        ⟨none, none, none, none, none⟩
        ⟨some "maison", none, none, none, some 1, some 1, none, some 50,
          none, none, none⟩ none false 1).prix_total_estime ≤
      (EstimationEngine.calculate ⟨none, none, some 100, none, none, none⟩
        ⟨none, none, none, none, none⟩
        ⟨some "maison", none, none, none, some 1, some 1, none, some 50,
          none, none, none⟩ none false 1).prix_haut :=
  C1_amended_price_order _ _ _ _ _ _ (by decide) (by decide) (by decide)

/-! Fusion lemmas (multi-photo merge). -/

theorem foldl_max_replicate (n : ℕ) (c : ℚ) :
    List.foldl max c (List.replicate n c) = c := by
  induction n with
  | zero => rfl
  | succ k ih => rw [List.replicate_succ, List.foldl_cons, max_self]; exact ih

theorem pyMaxQ_cons_cons_replicate (j : ℕ) (c : ℚ) :
    pyMaxQ (c :: c :: List.replicate j c) = c := by
  show List.foldl max c (c :: List.replicate j c) = c
  rw [List.foldl_cons, max_self]
  exact foldl_max_replicate j c

/-- The merged confidence over `k ≥ 2` copies of one assessment is
`min(95, confidence + 5k)`. -/
theorem merge_replicate_confidence (ord : List String) (a : Assessment)
    (k : ℕ) (h : 2 ≤ k) :
    (VisionAnalyzer.merge_analyses ord (List.replicate k a)).score_confiance =
      some (min 95 (a.score_confiance.getD 50 + (k : ℚ) * 5)) := by
  obtain ⟨j, rfl⟩ : ∃ j, k = j + 2 := ⟨k - 2, by omega⟩
  rw [show j + 2 = (j + 1) + 1 from rfl, List.replicate_succ, List.replicate_succ]
  simp only [VisionAnalyzer.merge_analyses, List.map_cons, List.map_replicate,
    pyMaxQ_cons_cons_replicate, List.length_cons, List.length_replicate]

/-- The condition class computed by `merge_analyses` (first state within
strict tolerance 0.05, in `STATES` order, else "bon") agrees with the
amended claim's nested-conditional formulation, for every mean. -/
theorem find_state_amended (avg : ℚ) :
    (match VisionAnalyzer.STATES.find? (fun s => decide (|s.2.2 - avg| < 5/100)) with
      | some s => s.1
      | none => "bon") = Spec.amended_condition_class avg := by
  unfold Spec.amended_condition_class
  simp only [VisionAnalyzer.STATES, List.find?]
  by_cases h1 : |(115/100 : ℚ) - avg| < 5/100
  · simp [h1]
  by_cases h2 : |(110/100 : ℚ) - avg| < 5/100
  · simp [h1, h2]
  by_cases h3 : |(1 : ℚ) - avg| < 5/100
  · simp [h1, h2, h3]
  by_cases h4 : |(95/100 : ℚ) - avg| < 5/100
  · simp [h1, h2, h3, h4]
  by_cases h5 : |(85/100 : ℚ) - avg| < 5/100
  · simp [h1, h2, h3, h4, h5]
  by_cases h6 : |(70/100 : ℚ) - avg| < 5/100
  · simp [h1, h2, h3, h4, h5, h6]
  by_cases h7 : |(55/100 : ℚ) - avg| < 5/100
  · simp [h1, h2, h3, h4, h5, h6, h7]
  · simp [h1, h2, h3, h4, h5, h6, h7]

theorem pyMaxByCount_count_le (types : List String) (xs : List String) :
    ∀ acc : String,
      types.count acc ≤ types.count
        (xs.foldl (fun acc y => if types.count y > types.count acc then y else acc) acc) := by
  induction xs with
  | nil => intro acc; simp
  | cons y ys ih =>
    intro acc
    rw [List.foldl_cons]
    refine le_trans ?_ (ih _)
    by_cases h : types.count y > types.count acc
    · rw [if_pos h]; exact h.le
    · rw [if_neg h]

theorem pyMaxByCount_mem_le (types : List String) (xs : List String) :
    ∀ (acc t : String), t ∈ xs →
      types.count t ≤ types.count
        (xs.foldl (fun acc y => if types.count y > types.count acc then y else acc) acc) := by
  induction xs with
  | nil => intro acc t ht; exact absurd ht (List.not_mem_nil t)
  | cons y ys ih =>
    intro acc t ht
    rw [List.foldl_cons]
    rcases List.mem_cons.mp ht with rfl | h
    · refine le_trans ?_ (pyMaxByCount_count_le types ys _)
      by_cases hy : types.count t > types.count acc
      · rw [if_pos hy]
      · rw [if_neg hy]; exact Nat.le_of_not_lt hy
    · exact ih _ t h

/-- Python's `max(iterable, key=types.count)` returns an element whose
count dominates the count of every member of the iterable. -/
theorem pyMaxByCount_ge (types ord : List String) (t : String) (ht : t ∈ ord) :
    types.count t ≤ types.count (pyMaxByCount types ord) := by
  cases ord with
  | nil => cases ht
  | cons x xs =>
    rcases List.mem_cons.mp ht with rfl | h
    · exact pyMaxByCount_count_le types xs t
    · exact pyMaxByCount_mem_le types xs x t h

/-- C6: merging a single assessment returns it unchanged; for N ≥ 2
assessments the merged confidence is `min(95, max confidence + 5N)`; and
for N identical copies the merged confidence strictly increases with N
as long as it is below the 95 ceiling. -/
theorem C6_fusion_identity_and_confidence :
    (∀ (ord : List String) (a : Assessment),
      VisionAnalyzer.merge_analyses ord [a] = a) ∧
    (∀ (ord : List String) (l : List Assessment), 2 ≤ l.length →
      (VisionAnalyzer.merge_analyses ord l).score_confiance =
        some (min 95 (pyMaxQ (l.map (fun a => a.score_confiance.getD 50)) +
          (l.length : ℚ) * 5))) ∧
    (∀ (ord : List String) (a : Assessment) (n : ℕ), 2 ≤ n →
      (VisionAnalyzer.merge_analyses ord (List.replicate n a)).score_confiance.getD 0 < 95 →
      (VisionAnalyzer.merge_analyses ord (List.replicate n a)).score_confiance.getD 0 <
        (VisionAnalyzer.merge_analyses ord (List.replicate (n + 1) a)).score_confiance.getD 0) := by
  refine ⟨fun ord a => rfl, ?_, ?_⟩
  · intro ord l h
    rcases l with _ | ⟨x, _ | ⟨y, rest⟩⟩
    · simp at h
    · simp at h
    · rfl
  · intro ord a n h2 hlt
    rw [merge_replicate_confidence ord a n h2] at hlt ⊢
    rw [merge_replicate_confidence ord a (n + 1) (by omega)]
    simp only [Option.getD_some] at hlt ⊢
    have h95 : a.score_confiance.getD 50 + (n : ℚ) * 5 < 95 := by
      rcases min_lt_iff.mp hlt with h | h
      · exact absurd h (lt_irrefl _)
      · exact h
    rw [min_eq_right h95.le]
    refine lt_min h95 ?_
    push_cast
    linarith

/-- Witness for C6 at concrete inputs: identity on one fallback
assessment, the confidence formula on two, and strict growth from two to
three copies (40 < 45). -/
theorem C6_witness :
    VisionAnalyzer.merge_analyses [] [VisionAnalyzer.get_fallback_analysis] =
      VisionAnalyzer.get_fallback_analysis ∧
    (VisionAnalyzer.merge_analyses []
        [VisionAnalyzer.get_fallback_analysis, VisionAnalyzer.get_fallback_analysis]).score_confiance =
      some (min 95 (pyMaxQ
          (([VisionAnalyzer.get_fallback_analysis, VisionAnalyzer.get_fallback_analysis] :
            List Assessment).map (fun a => a.score_confiance.getD 50)) +
        ((([VisionAnalyzer.get_fallback_analysis, VisionAnalyzer.get_fallback_analysis] :
          List Assessment).length : ℚ)) * 5)) ∧
    (VisionAnalyzer.merge_analyses []
        (List.replicate 2 VisionAnalyzer.get_fallback_analysis)).score_confiance.getD 0 <
      (VisionAnalyzer.merge_analyses []
        (List.replicate 3 VisionAnalyzer.get_fallback_analysis)).score_confiance.getD 0 :=
  ⟨C6_fusion_identity_and_confidence.1 [] _,
   C6_fusion_identity_and_confidence.2.1 [] _ (by simp),
   C6_fusion_identity_and_confidence.2.2 [] _ 2 (by norm_num) (by decide)⟩

/-- C5 fails as stated: for coefficients 1.15 and 1.09 the mean is 1.12;
"tres_bon" (1.10, distance 0.02) is the closest class and lies within
tolerance, but the code scans `STATES` in order and returns the FIRST
class within 0.05, namely "neuf" (1.15, distance 0.03). -/
theorem C5_counterexample :
    (VisionAnalyzer.merge_analyses ["inconnu"]
        [⟨none, none, none, none, some (115/100), none, none, none, none, none, none⟩,
         ⟨none, none, none, none, some (109/100), none, none, none, none, none, none⟩]).etat_exterieur =
      some "neuf" ∧
    Spec.claimed_condition_class (VisionAnalyzer.avg_coef
        [⟨none, none, none, none, some (115/100), none, none, none, none, none, none⟩,
         ⟨none, none, none, none, some (109/100), none, none, none, none, none, none⟩]) =
      "tres_bon" ∧
    ("neuf" : String) ≠ "tres_bon" := by
  refine ⟨by decide, by decide, by decide⟩

/-- C5 amended: the merged condition class is the FIRST class, in the
fixed `STATES` enumeration order, whose coefficient differs from the mean
coefficient by strictly less than 0.05 — not the closest such class —
and "bon" when no class is within tolerance. -/
theorem C5_amended_condition :
    ∀ (ord : List String) (l : List Assessment), 2 ≤ l.length →
      (VisionAnalyzer.merge_analyses ord l).etat_exterieur =
        some (Spec.amended_condition_class (VisionAnalyzer.avg_coef l)) := by
  intro ord l h
  rcases l with _ | ⟨x, _ | ⟨y, rest⟩⟩
  · simp at h
  · simp at h
  · exact congrArg some (find_state_amended (VisionAnalyzer.avg_coef (x :: y :: rest)))

/-- Witness for C5 amended at the concrete two-assessment input. -/
theorem C5_witness :
    (VisionAnalyzer.merge_analyses ["inconnu"]
        [⟨none, none, none, none, some (115/100), none, none, none, none, none, none⟩,
         ⟨none, none, none, none, some (109/100), none, none, none, none, none, none⟩]).etat_exterieur =
      some (Spec.amended_condition_class (VisionAnalyzer.avg_coef
        [⟨none, none, none, none, some (115/100), none, none, none, none, none, none⟩,
         ⟨none, none, none, none, some (109/100), none, none, none, none, none, none⟩])) :=
  C5_amended_condition ["inconnu"] _ (by simp)

/-- C7 fails as stated: the tie-break is NOT first-seen input order — it
is the iteration order of Python's `set(types)`, which is unspecified for
strings.  With types `[maison, appartement]` (a tie) and the admissible
set order `[appartement, maison]`, the code returns "appartement" while
the claim requires the first-seen "maison". -/
theorem C7_counterexample :
    set_order_admissible ["appartement", "maison"]
      (([⟨some "maison", none, none, none, none, none, none, none, none, none, none⟩,
         ⟨some "appartement", none, none, none, none, none, none, none, none, none, none⟩] :
        List Assessment).map (fun a => a.type_bien.getD "inconnu")) ∧
    (VisionAnalyzer.merge_analyses ["appartement", "maison"]
        [⟨some "maison", none, none, none, none, none, none, none, none, none, none⟩,
         ⟨some "appartement", none, none, none, none, none, none, none, none, none, none⟩]).type_bien =
      some "appartement" ∧
    Spec.claimed_type_vote
        (([⟨some "maison", none, none, none, none, none, none, none, none, none, none⟩,
           ⟨some "appartement", none, none, none, none, none, none, none, none, none, none⟩] :
          List Assessment).map (fun a => a.type_bien.getD "inconnu")) = "maison" ∧
    ("appartement" : String) ≠ "maison" := by
  refine ⟨⟨by decide, ?_⟩, by decide, by decide, by decide⟩
  intro s
  simp only [List.map_cons, List.map_nil, Option.getD_some, List.mem_cons,
    List.not_mem_nil, or_false]
  tauto

/-- C7 amended: the merged property type always carries a maximal
occurrence count among the input types, for EVERY admissible iteration
order of the Python set; which tied candidate wins depends on that
unspecified order, not on first-seen input order. -/
theorem C7_amended_majority :
    ∀ (ord : List String) (l : List Assessment), 2 ≤ l.length →
      set_order_admissible ord (l.map (fun a => a.type_bien.getD "inconnu")) →
      ∃ ty, (VisionAnalyzer.merge_analyses ord l).type_bien = some ty ∧
        ∀ t ∈ l.map (fun a => a.type_bien.getD "inconnu"),
          (l.map (fun a => a.type_bien.getD "inconnu")).count t ≤
            (l.map (fun a => a.type_bien.getD "inconnu")).count ty := by
  intro ord l h hadm
  rcases l with _ | ⟨x, _ | ⟨y, rest⟩⟩
  · simp at h
  · simp at h
  · refine ⟨pyMaxByCount ((x :: y :: rest).map
        (fun a : Assessment => a.type_bien.getD "inconnu")) ord, rfl, ?_⟩
    intro t ht
    exact pyMaxByCount_ge _ ord t ((hadm.2 t).mpr ht)

/-- Witness for C7 amended at a concrete input (two identical types, the
unique admissible set order). -/
theorem C7_witness :
    ∃ ty, (VisionAnalyzer.merge_analyses ["maison"]
        [⟨some "maison", none, none, none, none, none, none, none, none, none, none⟩,
         ⟨some "maison", none, none, none, none, none, none, none, none, none, none⟩]).type_bien =
      some ty ∧
      ∀ t ∈ ([⟨some "maison", none, none, none, none, none, none, none, none, none, none⟩,
              ⟨some "maison", none, none, none, none, none, none, none, none, none, none⟩] :
          List Assessment).map (fun a => a.type_bien.getD "inconnu"),
        (([⟨some "maison", none, none, none, none, none, none, none, none, none, none⟩,
           ⟨some "maison", none, none, none, none, none, none, none, none, none, none⟩] :
          List Assessment).map (fun a => a.type_bien.getD "inconnu")).count t ≤
        (([⟨some "maison", none, none, none, none, none, none, none, none, none, none⟩,
           ⟨some "maison", none, none, none, none, none, none, none, none, none, none⟩] :
          List Assessment).map (fun a => a.type_bien.getD "inconnu")).count ty :=
  C7_amended_majority ["maison"] _ (by simp)
    ⟨by decide, fun s => by
      simp only [List.map_cons, List.map_nil, Option.getD_some, List.mem_cons,
        List.not_mem_nil, or_false, or_self]⟩

/-! Tiered-fallback lemmas. -/

/-- `_get_commune_code` always issues exactly one geo request. -/
theorem get_commune_code_reqs (t : DVFService.DvfTransport) :
    (DVFService.get_commune_code t).2 = [DVFService.DvfReq.geo_communes] := by
  obtain ⟨cq, geo⟩ := t
  cases geo with
  | timeout => rfl
  | exc => rfl
  | ok status communes =>
    unfold DVFService.get_commune_code
    dsimp only
    by_cases h : status = 200
    · rw [if_pos h]; cases communes <;> rfl
    · rw [if_neg h]

/-- `_fetch_etalab` returns no transactions, whatever the transport; its
only side effect is the commune-code lookup. -/
theorem fetch_etalab_eq (t : DVFService.DvfTransport) :
    DVFService.fetch_etalab t = ([], (DVFService.get_commune_code t).2) := by
  unfold DVFService.fetch_etalab
  dsimp only
  split <;> rfl

/-- A failed or empty primary response makes `_fetch_cquest` return no
transactions (after its single request). -/
theorem fetch_cquest_failed (t : DVFService.DvfTransport)
    (h : DVFService.primary_failed t.cquest) :
    DVFService.fetch_cquest t = ([], [DVFService.DvfReq.cquest]) := by
  obtain ⟨cq, geo⟩ := t
  cases cq with
  | timeout => rfl
  | exc => rfl
  | ok status body =>
    unfold DVFService.fetch_cquest
    dsimp only
    rcases h with h | h
    · rw [if_neg h]
    · subst h
      split_ifs <;> rfl

/-- The request log of the tier-3 commune-stats path: one geo request. -/
theorem get_commune_stats_reqs (t : DVFService.DvfTransport) (lat lon : ℚ) :
    (DVFService.get_commune_stats t lat lon).2 = [DVFService.DvfReq.geo_communes] :=
  get_commune_code_reqs t

/-- C3 fails as stated on its no-network-I/O conjunct: the DVF tier-3
default path (`_get_commune_stats`) issues one commune-lookup request —
whose result the source then never uses — before building the
deterministic default record. -/
theorem C3_counterexample :
    (DVFService.get_commune_stats ⟨Net.exc, Net.exc⟩ 0 0).2 =
      [DVFService.DvfReq.geo_communes] ∧
    (DVFService.get_commune_stats ⟨Net.exc, Net.exc⟩ 0 0).2 ≠
      ([] : List DVFService.DvfReq) := by
  refine ⟨by decide, by decide⟩

/-- C3 amended: whenever the primary query fails (raises, times out,
returns non-200, or returns an empty result set) the cadastre fetch
returns exactly the deterministic fallback record tagged
source="fallback", issuing no request beyond the failed primary (its
tier-3 constructor performs no network I/O); the DVF fetch returns
exactly the deterministic commune-stats default, tagged
source="Estimation régionale (données DVF indisponibles)" with 0
transactions, but its tier-3 path first issues one (unused)
commune-lookup request; neither function can fail, being total on every
transport. -/
theorem C3_amended_tiered_fallback :
    (∀ (t : CadastreService.CadTransport) (lat lon : ℚ),
      CadastreService.primary_failed t.apicarto →
      CadastreService.get_parcelle t lat lon =
        (CadastreService.get_fallback_data lat lon, [CadastreService.CadReq.apicarto])) ∧
    (∀ lat lon : ℚ, (CadastreService.get_fallback_data lat lon).source = "fallback") ∧
    (∀ (t : DVFService.DvfTransport) (lat lon : ℚ) (r m today : ℤ),
      DVFService.primary_failed t.cquest →
      DVFService.get_stats t lat lon r m today =
        ((DVFService.get_commune_stats t lat lon).1,
         [DVFService.DvfReq.cquest, DVFService.DvfReq.geo_communes,
          DVFService.DvfReq.geo_communes])) ∧
    (∀ (t : DVFService.DvfTransport) (lat lon : ℚ),
      (DVFService.get_commune_stats t lat lon).1.source =
        "Estimation régionale (données DVF indisponibles)" ∧
      (DVFService.get_commune_stats t lat lon).1.nb_transactions = 0) := by
  refine ⟨?_, fun lat lon => rfl, ?_, fun t lat lon => ⟨rfl, rfl⟩⟩
  · intro t lat lon h
    obtain ⟨api, gpu⟩ := t
    cases api with
    | timeout => rfl
    | exc => rfl
    | ok status features =>
      unfold CadastreService.get_parcelle
      dsimp only
      rcases h with h | h
      · rw [if_pos h]
      · subst h
        split_ifs <;> rfl
  · intro t lat lon r m today h
    have hc := fetch_cquest_failed t h
    have he := fetch_etalab_eq t
    have hg := get_commune_code_reqs t
    have hcs := get_commune_stats_reqs t lat lon
    simp only [DVFService.get_stats, hc, he, hg, hcs]
    simp

/-- Witness for C3 amended at a concrete always-raising transport. -/
theorem C3_witness :
    CadastreService.get_parcelle ⟨Net.exc, Net.exc⟩ 48 2 =
      (CadastreService.get_fallback_data 48 2, [CadastreService.CadReq.apicarto]) ∧
    DVFService.get_stats ⟨Net.exc, Net.exc⟩ 0 0 500 12 0 =
      ((DVFService.get_commune_stats ⟨Net.exc, Net.exc⟩ 0 0).1,
       [DVFService.DvfReq.cquest, DVFService.DvfReq.geo_communes,
        DVFService.DvfReq.geo_communes]) ∧
    (DVFService.get_commune_stats ⟨Net.exc, Net.exc⟩ 0 0).1.source =
      "Estimation régionale (données DVF indisponibles)" ∧
    (DVFService.get_commune_stats ⟨Net.exc, Net.exc⟩ 0 0).1.nb_transactions = 0 :=
  ⟨C3_amended_tiered_fallback.1 _ 48 2 trivial,
   C3_amended_tiered_fallback.2.2.1 _ 0 0 500 12 0 trivial,
   (C3_amended_tiered_fallback.2.2.2 _ 0 0).1,
   (C3_amended_tiered_fallback.2.2.2 _ 0 0).2⟩

end Estimmo
